import Mathlib

/-!
Verification of the `AffineTransform` layer of the eesen toolkit
(`src/net/affine-trans-layer.h`) against its natural-language specification.

`BaseFloat` is modelled by `ℚ`; dense matrices and vectors of the tensor
backend are total functions out of `Fin`.  The dense tensor backend
(`gpucompute/`) and the stream framing primitives are external to the shown
source; their operations are modelled from the spec's capability list
(transpose-aware multiply-accumulate, elementwise clamp, row-broadcast add,
row-sum reduction, elementwise multiply-accumulate, scalar scale,
add-scaled).
-/

namespace Eesen

/-- Dense matrix of the backend, `r` rows and `c` columns. -/
def Mat (r c : ℕ) : Type := Fin r → Fin c → ℚ

/-- Dense vector of the backend, length `n`. -/
def Vec (n : ℕ) : Type := Fin n → ℚ

instance (r c : ℕ) : DecidableEq (Mat r c) := by
  unfold Mat; infer_instance

instance (n : ℕ) : DecidableEq (Vec n) := by
  unfold Vec; infer_instance

/-- Modelled from the spec: backend `Set(v)`, fills every element. -/
def matConst (r c : ℕ) (x : ℚ) : Mat r c := fun _ _ => x

/-- Modelled from the spec: backend `Set(v)` on a vector. -/
def vecConst (n : ℕ) (x : ℚ) : Vec n := fun _ => x

/-- Modelled from the spec: backend `AddVecToRows(alpha, v, beta)`,
row-broadcast add: `out = alpha * v (each row) + beta * out`. -/
def addVecToRows {r c : ℕ} (alpha : ℚ) (v : Vec c) (beta : ℚ) (out : Mat r c) :
    Mat r c := fun i j => alpha * v j + beta * out i j

/-- Modelled from the spec: backend `AddMatMat(alpha, A, kNoTrans, B, kTrans, beta)`:
`out = alpha * A * Bᵀ + beta * out`. -/
def addMatMatNT {r c k : ℕ} (alpha : ℚ) (A : Mat r k) (B : Mat c k) (beta : ℚ)
    (out : Mat r c) : Mat r c :=
  fun i j => alpha * (∑ t, A i t * B j t) + beta * out i j

/-- Modelled from the spec: backend `AddMatMat(alpha, A, kTrans, B, kNoTrans, beta)`:
`out = alpha * Aᵀ * B + beta * out`. -/
def addMatMatTN {r c k : ℕ} (alpha : ℚ) (A : Mat k r) (B : Mat k c) (beta : ℚ)
    (out : Mat r c) : Mat r c :=
  fun i j => alpha * (∑ t, A t i * B t j) + beta * out i j

/-- Modelled from the spec: backend `AddMatMat(alpha, A, kNoTrans, B, kNoTrans, beta)`:
`out = alpha * A * B + beta * out`. -/
def addMatMatNN {r c k : ℕ} (alpha : ℚ) (A : Mat r k) (B : Mat k c) (beta : ℚ)
    (out : Mat r c) : Mat r c :=
  fun i j => alpha * (∑ t, A i t * B t j) + beta * out i j

/-- Modelled from the spec: backend `AddRowSumMat(alpha, M, beta)`,
column-wise sum of the rows: `v = alpha * colsum(M) + beta * v`. -/
def addRowSumMat {r c : ℕ} (alpha : ℚ) (M : Mat r c) (beta : ℚ) (v : Vec c) :
    Vec c := fun j => alpha * (∑ i, M i j) + beta * v j

/-- Modelled from the spec: backend `ApplyFloor(f)`, elementwise clamp from below. -/
def matApplyFloor {r c : ℕ} (f : ℚ) (M : Mat r c) : Mat r c :=
  fun i j => max f (M i j)

/-- Modelled from the spec: backend `ApplyCeiling(cl)`, elementwise clamp from above. -/
def matApplyCeiling {r c : ℕ} (cl : ℚ) (M : Mat r c) : Mat r c :=
  fun i j => min cl (M i j)

/-- Modelled from the spec: backend `ApplyFloor(f)` on a vector. -/
def vecApplyFloor {n : ℕ} (f : ℚ) (v : Vec n) : Vec n := fun i => max f (v i)

/-- Modelled from the spec: backend `ApplyCeiling(cl)` on a vector. -/
def vecApplyCeiling {n : ℕ} (cl : ℚ) (v : Vec n) : Vec n := fun i => min cl (v i)

/-- Modelled from the spec: backend `AddMat(alpha, A)`: `M += alpha * A`. -/
def addMat {r c : ℕ} (alpha : ℚ) (A : Mat r c) (M : Mat r c) : Mat r c :=
  fun i j => M i j + alpha * A i j

/-- Modelled from the spec: backend `AddVec(alpha, a)`: `v += alpha * a`. -/
def addVec {n : ℕ} (alpha : ℚ) (a : Vec n) (v : Vec n) : Vec n :=
  fun i => v i + alpha * a i

/-- Modelled from the spec: backend `Scale(s)` on a matrix. -/
def matScale {r c : ℕ} (s : ℚ) (M : Mat r c) : Mat r c := fun i j => s * M i j

/-- Modelled from the spec: backend `Scale(s)` on a vector. -/
def vecScale {n : ℕ} (s : ℚ) (v : Vec n) : Vec n := fun i => s * v i

/-- Modelled from the spec: backend `AddMatMatElements(alpha, A, B, beta)`,
elementwise multiply-accumulate: `M = alpha * A .* B + beta * M`. -/
def addMatMatElements {r c : ℕ} (alpha : ℚ) (A B : Mat r c) (beta : ℚ)
    (M : Mat r c) : Mat r c :=
  fun i j => alpha * A i j * B i j + beta * M i j

/-- Modelled from the spec: backend `AddVecVec(alpha, a, b, beta)`,
elementwise multiply-accumulate on vectors. -/
def addVecVec {n : ℕ} (alpha : ℚ) (a b : Vec n) (beta : ℚ) (v : Vec n) : Vec n :=
  fun i => alpha * a i * b i + beta * v i

/-- Backend numeric constants and primitives left open by the spec: the AdaGrad
epsilon, the RMSProp decay constant, and the square-root routine of the
accelerator.  The layer is verified for every instantiation. -/
structure Backend where
  sqrtFn : ℚ → ℚ
  eps : ℚ
  decay : ℚ

/-- Modelled from the spec: `AdagradAccuUpdate(accu, corr, scale)` of the
backend accumulates the squared gradient, `accu += corr .* corr`. -/
def adagradAccuUpdateM {r c : ℕ} (accu corr : Mat r c) : Mat r c :=
  fun i j => accu i j + corr i j * corr i j

/-- Modelled from the spec: `AdagradAccuUpdate` on vectors. -/
def adagradAccuUpdateV {n : ℕ} (accu corr : Vec n) : Vec n :=
  fun i => accu i + corr i * corr i

/-- Modelled from the spec: `RMSPropAccuUpdate(accu, corr, scale)` applies the
exponential decay `accu = decay * accu + (1 - decay) * corr .* corr`. -/
def rmsPropAccuUpdateM {r c : ℕ} (bk : Backend) (accu corr : Mat r c) : Mat r c :=
  fun i j => bk.decay * accu i j + (1 - bk.decay) * (corr i j * corr i j)

/-- Modelled from the spec: `RMSPropAccuUpdate` on vectors. -/
def rmsPropAccuUpdateV {n : ℕ} (bk : Backend) (accu corr : Vec n) : Vec n :=
  fun i => bk.decay * accu i + (1 - bk.decay) * (corr i * corr i)

/-- Modelled from the spec: `AdagradScaleCompute(scale, accu)` computes the
elementwise `scale = 1 / sqrt(accu + eps)`. -/
def adagradScaleComputeM {r c : ℕ} (bk : Backend) (accu : Mat r c) : Mat r c :=
  fun i j => 1 / bk.sqrtFn (accu i j + bk.eps)

/-- Modelled from the spec: `AdagradScaleCompute` on vectors. -/
def adagradScaleComputeV {n : ℕ} (bk : Backend) (accu : Vec n) : Vec n :=
  fun i => 1 / bk.sqrtFn (accu i + bk.eps)

/-- The update rules of `Update` (`src/net/affine-trans-layer.h:174`). -/
inductive UpdateRule : Type
  | sgd_update : UpdateRule
  | adagrad_update : UpdateRule
  | rmsprop_update : UpdateRule
deriving DecidableEq

/-- The mutable state of `class AffineTransform`
(`src/net/affine-trans-layer.h:260`), for fixed `dimIn`, `dimOut`. -/
structure AffineTransform (dimIn dimOut : ℕ) where
  linearity : Mat dimOut dimIn
  bias : Vec dimOut
  linearity_corr : Mat dimOut dimIn
  bias_corr : Vec dimOut
  linearity_corr_accu : Mat dimOut dimIn
  bias_corr_accu : Vec dimOut
  linearity_corr_accu_scale : Mat dimOut dimIn
  bias_corr_accu_scale : Vec dimOut
  learn_rate_coef : ℚ
  max_grad : ℚ
  adaBuffersInitialized : Bool
deriving DecidableEq

/-- The constructor `AffineTransform(dim_in, dim_out)`
(`src/net/affine-trans-layer.h:35`): all tensors freshly allocated
(zero-filled by the backend), `learn_rate_coef = 1.0`, `max_grad = 0.0`,
`adaBuffersInitialized = false`. -/
def mkAffineTransform (dimIn dimOut : ℕ) : AffineTransform dimIn dimOut where
  linearity := matConst dimOut dimIn 0
  bias := vecConst dimOut 0
  linearity_corr := matConst dimOut dimIn 0
  bias_corr := vecConst dimOut 0
  linearity_corr_accu := matConst dimOut dimIn 0
  bias_corr_accu := vecConst dimOut 0
  linearity_corr_accu_scale := matConst dimOut dimIn 0
  bias_corr_accu_scale := vecConst dimOut 0
  learn_rate_coef := 1
  max_grad := 0
  adaBuffersInitialized := false

/-- `AffineTransform::InitAdaBuffers` (`src/net/affine-trans-layer.h:74`):
zero-fill the two accumulators and the two scale buffers, set the flag. -/
def initAdaBuffers {dimIn dimOut : ℕ} (st : AffineTransform dimIn dimOut) :
    AffineTransform dimIn dimOut :=
  { st with
    linearity_corr_accu := matConst dimOut dimIn 0
    bias_corr_accu := vecConst dimOut 0
    linearity_corr_accu_scale := matConst dimOut dimIn 0
    bias_corr_accu_scale := vecConst dimOut 0
    adaBuffersInitialized := true }

/-- `AffineTransform::Update` (`src/net/affine-trans-layer.h:174`).
`lr` and `mmt` are `opts_.learn_rate` and `opts_.momentum`, supplied by the
ambient option set.  `input` is the forward minibatch (batch `b` rows,
`dimIn` columns), `diff` the output gradient (`b` rows, `dimOut` columns). -/
def update {dimIn dimOut b : ℕ} (bk : Backend) (lr mmt : ℚ)
    (input : Mat b dimIn) (diff : Mat b dimOut) (rule : UpdateRule)
    (st : AffineTransform dimIn dimOut) : AffineTransform dimIn dimOut :=
  let corrW := addMatMatTN 1 diff input mmt st.linearity_corr
  let corrB := addRowSumMat 1 diff mmt st.bias_corr
  let corrW := if 0 < st.max_grad then
      matApplyCeiling st.max_grad (matApplyFloor (-st.max_grad) corrW) else corrW
  let corrB := if 0 < st.max_grad then
      vecApplyCeiling st.max_grad (vecApplyFloor (-st.max_grad) corrB) else corrB
  let st := { st with linearity_corr := corrW, bias_corr := corrB }
  match rule with
  | UpdateRule.sgd_update =>
    let lr := lr * st.learn_rate_coef
    { st with
      linearity := addMat (-lr) corrW st.linearity
      bias := addVec (-lr) corrB st.bias }
  | UpdateRule.adagrad_update =>
    let st := if st.adaBuffersInitialized then st else initAdaBuffers st
    let accuW := adagradAccuUpdateM st.linearity_corr_accu corrW
    let accuB := adagradAccuUpdateV st.bias_corr_accu corrB
    let scaleW := adagradScaleComputeM bk accuW
    let scaleB := adagradScaleComputeV bk accuB
    { st with
      linearity_corr_accu := accuW
      bias_corr_accu := accuB
      linearity_corr_accu_scale := scaleW
      bias_corr_accu_scale := scaleB
      linearity := addMatMatElements (-lr) scaleW corrW 1 st.linearity
      bias := addVecVec (-lr) scaleB corrB 1 st.bias }
  | UpdateRule.rmsprop_update =>
    let st := if st.adaBuffersInitialized then st else initAdaBuffers st
    let accuW := rmsPropAccuUpdateM bk st.linearity_corr_accu corrW
    let accuB := rmsPropAccuUpdateV bk st.bias_corr_accu corrB
    let scaleW := adagradScaleComputeM bk accuW
    let scaleB := adagradScaleComputeV bk accuB
    { st with
      linearity_corr_accu := accuW
      bias_corr_accu := accuB
      linearity_corr_accu_scale := scaleW
      bias_corr_accu_scale := scaleB
      linearity := addMatMatElements (-lr) scaleW corrW 1 st.linearity
      bias := addVecVec (-lr) scaleB corrB 1 st.bias }

/-- `AffineTransform::PropagateFnc` (`src/net/affine-trans-layer.h:161`):
overwrite the output buffer with the row-broadcast bias, then accumulate
`input * linearityᵀ`.  Returns the updated layer (untouched) and the output
buffer, mirroring that the method writes only through `out`. -/
def propagateFnc {dimIn dimOut b : ℕ} (st : AffineTransform dimIn dimOut)
    (input : Mat b dimIn) (out : Mat b dimOut) :
    AffineTransform dimIn dimOut × Mat b dimOut :=
  (st, addMatMatNT 1 input st.linearity 1 (addVecToRows 1 st.bias 0 out))

/-- `AffineTransform::BackpropagateFnc` (`src/net/affine-trans-layer.h:168`):
overwrite the input-gradient buffer with `out_diff * linearity`.  The `input`
and `out` arguments of the method are taken and ignored, as in the source. -/
def backpropagateFnc {dimIn dimOut b : ℕ} (st : AffineTransform dimIn dimOut)
    (input : Mat b dimIn) (out : Mat b dimOut) (out_diff : Mat b dimOut)
    (in_diff : Mat b dimIn) : AffineTransform dimIn dimOut × Mat b dimIn :=
  (st, addMatMatNN 1 out_diff st.linearity 0 in_diff)

/-- `AffineTransform::Scale` (`src/net/affine-trans-layer.h:221`). -/
def scaleLayer {dimIn dimOut : ℕ} (s : ℚ) (st : AffineTransform dimIn dimOut) :
    AffineTransform dimIn dimOut :=
  { st with linearity := matScale s st.linearity, bias := vecScale s st.bias }

/-- A `TrainableLayer` reference of the given dimensions, as received by
`Add`.  Modelled from the spec: the toolkit's other concrete trainable layer
variants are outside the shown source and are represented abstractly by a
tag. -/
inductive TrainableLayer (dimIn dimOut : ℕ) : Type
  | affine (l : AffineTransform dimIn dimOut) : TrainableLayer dimIn dimOut
  | otherVariant (tag : ℕ) : TrainableLayer dimIn dimOut

/-- The `dynamic_cast<const AffineTransform*>` of `Add`
(`src/net/affine-trans-layer.h:227`): `none` models the null pointer
returned for any other concrete variant. -/
def dynCastAffine {dimIn dimOut : ℕ} (l : TrainableLayer dimIn dimOut) :
    Option (AffineTransform dimIn dimOut) :=
  match l with
  | TrainableLayer.affine a => some a
  | TrainableLayer.otherVariant _ => none

/-- `AffineTransform::Add` (`src/net/affine-trans-layer.h:226`): downcast the
other layer, then `linearity_ += scale * other.linearity_` and
`bias_ += scale * other.bias_`.  The unchecked dereference of a failed
downcast is a fatal fault, modelled as `none`. -/
def addLayer {dimIn dimOut : ℕ} (s : ℚ) (layer_other : TrainableLayer dimIn dimOut)
    (st : AffineTransform dimIn dimOut) : Option (AffineTransform dimIn dimOut) :=
  match dynCastAffine layer_other with
  | none => none
  | some other =>
    some { st with
      linearity := addMat s other.linearity st.linearity
      bias := addVec s other.bias st.bias }

/-- One item of the layer's token stream, as framed by the reader/writer
primitives (`WriteToken`/`WriteBasicType`/tensor `Write`).  Modelled from the
spec: the framing layer is external to the shown source; a token is the only
item whose first streamed character is the marker the reader peeks for. -/
inductive Item (dimIn dimOut : ℕ) : Type
  | tok (s : String) : Item dimIn dimOut
  | val (x : ℚ) : Item dimIn dimOut
  | matI (M : Mat dimOut dimIn) : Item dimIn dimOut
  | vecI (v : Vec dimOut) : Item dimIn dimOut
deriving DecidableEq

/-- The `Peek(is, binary) == chr( <)` test: the next stream item is a token. -/
def peekIsTok {dimIn dimOut : ℕ} : List (Item dimIn dimOut) → Bool
  | Item.tok _ :: _ => true
  | _ => false

/-- Modelled from the spec: framing `ExpectToken`, which fails unless the
next item is exactly the expected token. -/
def expectToken {dimIn dimOut : ℕ} (s : String) :
    List (Item dimIn dimOut) → Option (List (Item dimIn dimOut))
  | Item.tok t :: rest => if t = s then some rest else none
  | _ => none

/-- Modelled from the spec: framing `ReadBasicType` for a float. -/
def readBasicType {dimIn dimOut : ℕ} :
    List (Item dimIn dimOut) → Option (ℚ × List (Item dimIn dimOut))
  | Item.val x :: rest => some (x, rest)
  | _ => none

/-- Modelled from the spec: tensor `Read` of a matrix sized
`dimOut × dimIn`. -/
def readMatItem {dimIn dimOut : ℕ} :
    List (Item dimIn dimOut) → Option (Mat dimOut dimIn × List (Item dimIn dimOut))
  | Item.matI M :: rest => some (M, rest)
  | _ => none

/-- Modelled from the spec: tensor `Read` of a vector of length `dimOut`. -/
def readVecItem {dimIn dimOut : ℕ} :
    List (Item dimIn dimOut) → Option (Vec dimOut × List (Item dimIn dimOut))
  | Item.vecI v :: rest => some (v, rest)
  | _ => none

/-- `AffineTransform::ReadData` (`src/net/affine-trans-layer.h:83`): clear the
flag, peek-then-consume each optional leading tag, then read the weights.
The closing `KALDI_ASSERT` dimension checks always hold here because `Item`
carries the layer's dimensions in its type.  Returns the layer and the rest
of the stream, or `none` on a framing fault. -/
def readData {dimIn dimOut : ℕ} (st0 : AffineTransform dimIn dimOut)
    (items : List (Item dimIn dimOut)) :
    Option (AffineTransform dimIn dimOut × List (Item dimIn dimOut)) :=
  let st := { st0 with adaBuffersInitialized := false }
  let step1 : Option (AffineTransform dimIn dimOut × List (Item dimIn dimOut)) :=
    if peekIsTok items then
      match expectToken "<LearnRateCoef>" items with
      | none => none
      | some items =>
        match readBasicType items with
        | none => none
        | some (x, items) => some ({ st with learn_rate_coef := x }, items)
    else some (st, items)
  match step1 with
  | none => none
  | some (st, items) =>
    let step2 : Option (AffineTransform dimIn dimOut × List (Item dimIn dimOut)) :=
      if peekIsTok items then
        match expectToken "<MaxGrad>" items with
        | none => none
        | some items =>
          match readBasicType items with
          | none => none
          | some (x, items) => some ({ st with max_grad := x }, items)
      else some (st, items)
    match step2 with
    | none => none
    | some (st, items) =>
      let step3 : Option (AffineTransform dimIn dimOut × List (Item dimIn dimOut)) :=
        if peekIsTok items then
          match expectToken "<AffineAccus>" items with
          | none => none
          | some items =>
            let st := initAdaBuffers st
            match readMatItem items with
            | none => none
            | some (A, items) =>
              match readVecItem items with
              | none => none
              | some (av, items) =>
                some ({ st with linearity_corr_accu := A, bias_corr_accu := av }, items)
        else some (st, items)
      match step3 with
      | none => none
      | some (st, items) =>
        match readMatItem items with
        | none => none
        | some (W, items) =>
          match readVecItem items with
          | none => none
          | some (bv, items) => some ({ st with linearity := W, bias := bv }, items)

/-- `AffineTransform::WriteData` (`src/net/affine-trans-layer.h:117`):
both scalar tags, then the accumulator block when `adaBuffersInitialized`,
then weight matrix and bias vector. -/
def writeData {dimIn dimOut : ℕ} (st : AffineTransform dimIn dimOut) :
    List (Item dimIn dimOut) :=
  [Item.tok "<LearnRateCoef>", Item.val st.learn_rate_coef,
   Item.tok "<MaxGrad>", Item.val st.max_grad] ++
  (if st.adaBuffersInitialized then
    [Item.tok "<AffineAccus>", Item.matI st.linearity_corr_accu,
     Item.vecI st.bias_corr_accu]
   else []) ++
  [Item.matI st.linearity, Item.vecI st.bias]

/-- One token of the `InitData` configuration line
(`src/net/affine-trans-layer.h:49`); `unknownTok` is any unrecognized
token, which raises `KALDI_ERR`. -/
inductive ConfigTok : Type
  | paramRangeTok (x : ℚ) : ConfigTok
  | learnRateCoefTok (x : ℚ) : ConfigTok
  | maxGradTok (x : ℚ) : ConfigTok
  | unknownTok (s : String) : ConfigTok

/-- The `InitData` parse loop: fold the tokens over the option defaults
`param_range = 0.02`, `learn_rate_coef = 1.0`, `max_grad = 0.0`; an
unrecognized token is fatal. -/
def parseInitConfig : List ConfigTok → ℚ → ℚ → ℚ → Option (ℚ × ℚ × ℚ)
  | [], pr, coef, mg => some (pr, coef, mg)
  | ConfigTok.paramRangeTok x :: rest, _, coef, mg => parseInitConfig rest x coef mg
  | ConfigTok.learnRateCoefTok x :: rest, pr, _, mg => parseInitConfig rest pr x mg
  | ConfigTok.maxGradTok x :: rest, pr, coef, _ => parseInitConfig rest pr coef x
  | ConfigTok.unknownTok _ :: _, _, _, _ => none

/-- `AffineTransform::InitData` (`src/net/affine-trans-layer.h:49`): parse the
config, then fill weight and bias with uniform-random values in
`[-param_range, param_range]`; the backend's random fill is abstracted by the
families `randW`, `randB` indexed by the half-range. -/
def initData {dimIn dimOut : ℕ} (config : List ConfigTok)
    (randW : ℚ → Mat dimOut dimIn) (randB : ℚ → Vec dimOut)
    (st : AffineTransform dimIn dimOut) : Option (AffineTransform dimIn dimOut) :=
  match parseInitConfig config (2 / 100) 1 0 with
  | none => none
  | some (pr, coef, mg) =>
    some { st with
      linearity := randW pr
      bias := randB pr
      learn_rate_coef := coef
      max_grad := mg }

/-- One operation of the layer's lifetime after construction. -/
inductive Op (dimIn dimOut : ℕ) : Type
  | opInitData (config : List ConfigTok) (randW : ℚ → Mat dimOut dimIn)
      (randB : ℚ → Vec dimOut) : Op dimIn dimOut
  | opReadData (items : List (Item dimIn dimOut)) : Op dimIn dimOut
  | opUpdate (b : ℕ) (bk : Backend) (lr mmt : ℚ) (input : Mat b dimIn)
      (diff : Mat b dimOut) (rule : UpdateRule) : Op dimIn dimOut
  | opScale (s : ℚ) : Op dimIn dimOut
  | opAdd (s : ℚ) (other : TrainableLayer dimIn dimOut) : Op dimIn dimOut

/-- Whether an `Op` is a `ReadData` call. -/
def isReadDataOp {dimIn dimOut : ℕ} : Op dimIn dimOut → Bool
  | Op.opReadData _ => true
  | _ => false

/-- Run one operation; `none` models a fatal fault. -/
def runOp {dimIn dimOut : ℕ} (st : AffineTransform dimIn dimOut) :
    Op dimIn dimOut → Option (AffineTransform dimIn dimOut)
  | Op.opInitData config randW randB => initData config randW randB st
  | Op.opReadData items => (readData st items).map Prod.fst
  | Op.opUpdate _ bk lr mmt input diff rule => some (update bk lr mmt input diff rule st)
  | Op.opScale s => some (scaleLayer s st)
  | Op.opAdd s other => addLayer s other st

/-- Whether a successful operation run from `st` to `st1` invoked
`InitAdaBuffers`: an adaptive `Update` with the flag still clear, or a
`ReadData` whose stream carried the accumulator block (in which case the
resulting flag is set). -/
def opAllocates {dimIn dimOut : ℕ} (st : AffineTransform dimIn dimOut)
    (op : Op dimIn dimOut) (st1 : AffineTransform dimIn dimOut) : Bool :=
  match op with
  | Op.opReadData _ => st1.adaBuffersInitialized
  | Op.opUpdate _ _ _ _ _ _ rule =>
    !st.adaBuffersInitialized && decide (rule ≠ UpdateRule.sgd_update)
  | _ => false

/-- Run a sequence of operations carrying the ghost bit "`InitAdaBuffers`
has been invoked at least once so far". -/
def runOpsG {dimIn dimOut : ℕ} :
    AffineTransform dimIn dimOut × Bool → List (Op dimIn dimOut) →
    Option (AffineTransform dimIn dimOut × Bool)
  | p, [] => some p
  | p, op :: ops =>
    match runOp p.1 op with
    | none => none
    | some st1 => runOpsG (st1, p.2 || opAllocates p.1 op st1) ops

/-- One `Update` call with its ambient hyperparameters and minibatch. -/
structure UpdCall (dimIn dimOut : ℕ) where
  b : ℕ
  bk : Backend
  lr : ℚ
  mmt : ℚ
  input : Mat b dimIn
  diff : Mat b dimOut
  rule : UpdateRule

/-- Apply one `Update` call. -/
def applyCall {dimIn dimOut : ℕ} (st : AffineTransform dimIn dimOut)
    (c : UpdCall dimIn dimOut) : AffineTransform dimIn dimOut :=
  update c.bk c.lr c.mmt c.input c.diff c.rule st

/-- Run a sequence of `Update` calls. -/
def runUpdates {dimIn dimOut : ℕ} (st : AffineTransform dimIn dimOut) :
    List (UpdCall dimIn dimOut) → AffineTransform dimIn dimOut
  | [] => st
  | c :: cs => runUpdates (applyCall st c) cs

/-- How many of the `Update` calls in the sequence invoke `InitAdaBuffers`. -/
def allocCount {dimIn dimOut : ℕ} (st : AffineTransform dimIn dimOut) :
    List (UpdCall dimIn dimOut) → ℕ
  | [] => 0
  | c :: cs =>
    (if !st.adaBuffersInitialized && decide (c.rule ≠ UpdateRule.sgd_update)
      then 1 else 0) + allocCount (applyCall st c) cs

/-- The accumulator contents `Update` leaves behind, as a function of the
rule, the pre-call state and the post-clip gradient: untouched under sgd,
otherwise the rule's accumulation applied to the existing buffer, or to the
zero-filled buffer `InitAdaBuffers` just allocated. -/
def expectedAccuM {dimIn dimOut : ℕ} (bk : Backend) (rule : UpdateRule)
    (st : AffineTransform dimIn dimOut) (corr : Mat dimOut dimIn) : Mat dimOut dimIn :=
  match rule with
  | UpdateRule.sgd_update => st.linearity_corr_accu
  | UpdateRule.adagrad_update =>
    adagradAccuUpdateM
      (if st.adaBuffersInitialized then st.linearity_corr_accu
        else matConst dimOut dimIn 0) corr
  | UpdateRule.rmsprop_update =>
    rmsPropAccuUpdateM bk
      (if st.adaBuffersInitialized then st.linearity_corr_accu
        else matConst dimOut dimIn 0) corr

/-- Companion of `expectedAccuM` for the bias accumulator. -/
def expectedAccuV {dimIn dimOut : ℕ} (bk : Backend) (rule : UpdateRule)
    (st : AffineTransform dimIn dimOut) (corr : Vec dimOut) : Vec dimOut :=
  match rule with
  | UpdateRule.sgd_update => st.bias_corr_accu
  | UpdateRule.adagrad_update =>
    adagradAccuUpdateV
      (if st.adaBuffersInitialized then st.bias_corr_accu else vecConst dimOut 0) corr
  | UpdateRule.rmsprop_update =>
    rmsPropAccuUpdateV bk
      (if st.adaBuffersInitialized then st.bias_corr_accu else vecConst dimOut 0) corr

/-! Concrete instances used to exercise the theorems. -/

/-- A concrete backend instantiation: identity square root, zero epsilon,
decay one half. -/
def exBk : Backend := { sqrtFn := fun x => x, eps := 0, decay := 1 / 2 }

/-- The 1×1 all-ones matrix. -/
def exOnes : Mat 1 1 := fun _ _ => 1

/-- The 1×1 all-zeros matrix. -/
def exZeroM : Mat 1 1 := fun _ _ => 0

/-- The zero vector of length 1. -/
def exZeroV : Vec 1 := fun _ => 0

/-- A fresh 1×1 layer whose `learn_rate_coef` has been set to 2. -/
def exStCoef2 : AffineTransform 1 1 :=
  { mkAffineTransform 1 1 with learn_rate_coef := 2 }

/-- A fresh 1×1 layer whose `max_grad` has been set to 1. -/
def exStClip : AffineTransform 1 1 :=
  { mkAffineTransform 1 1 with max_grad := 1 }

/-- A fresh 1×1 layer whose `learn_rate_coef` has been set to 1/2. -/
def exStHalf : AffineTransform 1 1 :=
  { mkAffineTransform 1 1 with learn_rate_coef := 1 / 2 }

/-- A 1×1 layer carrying initialized adaptive accumulators. -/
def exStAda : AffineTransform 1 1 :=
  { mkAffineTransform 1 1 with
    adaBuffersInitialized := true
    linearity_corr_accu := exOnes
    bias_corr_accu := fun _ => 1 }

/-- An adaptive update followed by a `ReadData` whose stream has no
accumulator block. -/
def exOpsC3 : List (Op 1 1) :=
  [Op.opUpdate 1 exBk 1 0 exOnes exOnes UpdateRule.adagrad_update,
   Op.opReadData [Item.matI exZeroM, Item.vecI exZeroV]]

/-- A single adagrad update call on a 1×1 layer. -/
def exCallAda : UpdCall 1 1 :=
  { b := 1, bk := exBk, lr := 1, mmt := 0, input := exOnes, diff := exOnes,
    rule := UpdateRule.adagrad_update }

/-- A single sgd update call on a 1×1 layer. -/
def exCallSgd : UpdCall 1 1 :=
  { b := 1, bk := exBk, lr := 1, mmt := 0, input := exOnes, diff := exOnes,
    rule := UpdateRule.sgd_update }

/-- A stream holding only the mandatory weight matrix and bias vector —
every optional tag absent. -/
def exItemsWB : List (Item 1 1) := [Item.matI exZeroM, Item.vecI exZeroV]

/-! Theorems. -/

/-- C7.  `Propagate` leaves the layer untouched and fills row `i` of the
output with `input[i] · linearityᵀ + bias`, for every row, independently of
the output buffer's prior contents. -/
theorem affine_c7_propagate_rows (dimIn dimOut b : ℕ)
    (st : AffineTransform dimIn dimOut) (input : Mat b dimIn) (out : Mat b dimOut) :
    (propagateFnc st input out).1 = st ∧
    ∀ i j, (propagateFnc st input out).2 i j =
      (∑ k, input i k * st.linearity j k) + st.bias j := by
  refine ⟨rfl, fun i j => ?_⟩
  simp [propagateFnc, addMatMatNT, addVecToRows]

/-- C8.  `Backpropagate` leaves the layer untouched and the input gradient it
writes is exactly `out_diff · linearity` (weight not transposed): the result
depends on nothing but `out_diff` and the weight matrix — in particular not
on the bias, the forward input, the cached forward output, or the prior
contents of the input-gradient buffer, none of which occur in the formula. -/
theorem affine_c8_backpropagate (dimIn dimOut b : ℕ)
    (st : AffineTransform dimIn dimOut) (input : Mat b dimIn)
    (out out_diff : Mat b dimOut) (in_diff : Mat b dimIn) :
    (backpropagateFnc st input out out_diff in_diff).1 = st ∧
    ∀ i j, (backpropagateFnc st input out out_diff in_diff).2 i j =
      ∑ t, out_diff i t * st.linearity t j := by
  refine ⟨rfl, fun i j => ?_⟩
  simp [backpropagateFnc, addMatMatNN]

/-- C4.  `Add(factor, other)` faults (failed downcast dereferenced) whenever
`other` is any non-affine variant, and on an affine `other` it succeeds with
`weight += factor * other.weight` and `bias += factor * other.bias`. -/
theorem affine_c4_add_typecheck (dimIn dimOut : ℕ) (s : ℚ)
    (st : AffineTransform dimIn dimOut) :
    (∀ tag, addLayer s (TrainableLayer.otherVariant tag) st = none) ∧
    ∀ l : AffineTransform dimIn dimOut,
      ∃ st1, addLayer s (TrainableLayer.affine l) st = some st1 ∧
        (∀ i j, st1.linearity i j = st.linearity i j + s * l.linearity i j) ∧
        (∀ i, st1.bias i = st.bias i + s * l.bias i) := by
  exact ⟨fun _ => rfl, fun l => ⟨_, rfl, fun _ _ => rfl, fun _ => rfl⟩⟩

/-- C10.  `Scale` and (successful) `Add` mutate only the weight matrix and
the bias vector: the gradient buffers, the adaptive accumulators and scale
buffers, both scalars and the flag are untouched. -/
theorem affine_c10_scale_add_frame (dimIn dimOut : ℕ) (s : ℚ)
    (st : AffineTransform dimIn dimOut) :
    ((scaleLayer s st).linearity_corr = st.linearity_corr ∧
     (scaleLayer s st).bias_corr = st.bias_corr ∧
     (scaleLayer s st).linearity_corr_accu = st.linearity_corr_accu ∧
     (scaleLayer s st).bias_corr_accu = st.bias_corr_accu ∧
     (scaleLayer s st).linearity_corr_accu_scale = st.linearity_corr_accu_scale ∧
     (scaleLayer s st).bias_corr_accu_scale = st.bias_corr_accu_scale ∧
     (scaleLayer s st).learn_rate_coef = st.learn_rate_coef ∧
     (scaleLayer s st).max_grad = st.max_grad ∧
     (scaleLayer s st).adaBuffersInitialized = st.adaBuffersInitialized) ∧
    ∀ l : AffineTransform dimIn dimOut,
      ∃ st1, addLayer s (TrainableLayer.affine l) st = some st1 ∧
        st1.linearity_corr = st.linearity_corr ∧
        st1.bias_corr = st.bias_corr ∧
        st1.linearity_corr_accu = st.linearity_corr_accu ∧
        st1.bias_corr_accu = st.bias_corr_accu ∧
        st1.linearity_corr_accu_scale = st.linearity_corr_accu_scale ∧
        st1.bias_corr_accu_scale = st.bias_corr_accu_scale ∧
        st1.learn_rate_coef = st.learn_rate_coef ∧
        st1.max_grad = st.max_grad ∧
        st1.adaBuffersInitialized = st.adaBuffersInitialized := by
  exact ⟨⟨rfl, rfl, rfl, rfl, rfl, rfl, rfl, rfl, rfl⟩,
    fun l => ⟨_, rfl, rfl, rfl, rfl, rfl, rfl, rfl, rfl, rfl, rfl⟩⟩

/-- The gradient buffers `Update` leaves behind are the momentum blend,
clipped exactly when `max_grad > 0`, for every rule. -/
theorem update_corr_eq (dimIn dimOut b : ℕ) (bk : Backend) (lr mmt : ℚ)
    (input : Mat b dimIn) (diff : Mat b dimOut) (rule : UpdateRule)
    (st : AffineTransform dimIn dimOut) :
    (update bk lr mmt input diff rule st).linearity_corr =
      (if 0 < st.max_grad then
        matApplyCeiling st.max_grad (matApplyFloor (-st.max_grad)
          (addMatMatTN 1 diff input mmt st.linearity_corr))
       else addMatMatTN 1 diff input mmt st.linearity_corr) ∧
    (update bk lr mmt input diff rule st).bias_corr =
      (if 0 < st.max_grad then
        vecApplyCeiling st.max_grad (vecApplyFloor (-st.max_grad)
          (addRowSumMat 1 diff mmt st.bias_corr))
       else addRowSumMat 1 diff mmt st.bias_corr) := by
  cases h : st.adaBuffersInitialized <;> cases rule <;>
    simp [update, initAdaBuffers, h]

/-- C9.  After any `Update` on a layer with `max_grad > 0`, every element of
the stored gradient buffers lies in `[-max_grad, max_grad]`; with
`max_grad = 0` the buffers are the unclipped momentum blend. -/
theorem affine_c9_gradient_clipping (dimIn dimOut b : ℕ) (bk : Backend)
    (lr mmt : ℚ) (input : Mat b dimIn) (diff : Mat b dimOut)
    (rule : UpdateRule) (st : AffineTransform dimIn dimOut) :
    (0 < st.max_grad →
      (∀ i j, -st.max_grad ≤ (update bk lr mmt input diff rule st).linearity_corr i j ∧
        (update bk lr mmt input diff rule st).linearity_corr i j ≤ st.max_grad) ∧
      (∀ i, -st.max_grad ≤ (update bk lr mmt input diff rule st).bias_corr i ∧
        (update bk lr mmt input diff rule st).bias_corr i ≤ st.max_grad)) ∧
    (st.max_grad = 0 →
      (update bk lr mmt input diff rule st).linearity_corr =
        addMatMatTN 1 diff input mmt st.linearity_corr ∧
      (update bk lr mmt input diff rule st).bias_corr =
        addRowSumMat 1 diff mmt st.bias_corr) := by
  obtain ⟨hW, hB⟩ := update_corr_eq dimIn dimOut b bk lr mmt input diff rule st
  constructor
  · intro hg
    rw [hW, hB, if_pos hg, if_pos hg]
    constructor
    · intro i j
      exact ⟨le_min (by linarith) (le_max_left _ _), min_le_left _ _⟩
    · intro i
      exact ⟨le_min (by linarith) (le_max_left _ _), min_le_left _ _⟩
  · intro h0
    rw [hW, hB]
    rw [if_neg (by rw [h0]; exact lt_irrefl 0), if_neg (by rw [h0]; exact lt_irrefl 0)]
    exact ⟨rfl, rfl⟩

/-- Witness for C9: a 1×1 layer with `max_grad = 1` yields clipped gradients
in `[-1, 1]`, and the fresh layer with `max_grad = 0` keeps the raw blend. -/
theorem affine_c9_gradient_clipping_witness :
    ((0 : ℚ) < exStClip.max_grad ∧
      (-exStClip.max_grad ≤
        (update exBk 1 0 exOnes exOnes UpdateRule.sgd_update exStClip).linearity_corr 0 0 ∧
       (update exBk 1 0 exOnes exOnes UpdateRule.sgd_update exStClip).linearity_corr 0 0 ≤
        exStClip.max_grad)) ∧
    ((mkAffineTransform 1 1).max_grad = 0 ∧
      (update exBk 1 0 exOnes exOnes UpdateRule.sgd_update
        (mkAffineTransform 1 1)).linearity_corr =
        addMatMatTN 1 exOnes exOnes 0 (mkAffineTransform 1 1).linearity_corr) :=
  ⟨⟨by norm_num [exStClip, mkAffineTransform],
    ((affine_c9_gradient_clipping 1 1 1 exBk 1 0 exOnes exOnes
      UpdateRule.sgd_update exStClip).1
      (by norm_num [exStClip, mkAffineTransform])).1 0 0⟩,
   ⟨rfl,
    ((affine_c9_gradient_clipping 1 1 1 exBk 1 0 exOnes exOnes
      UpdateRule.sgd_update (mkAffineTransform 1 1)).2 rfl).1⟩⟩

/-- Counterexample to C1 as stated: on a 1×1 layer with
`learn_rate_coef = 2`, one adagrad `Update` (base learning rate 1, no
momentum) moves the weight by `-base_lr * scale * corr`, not by
`-base_lr * learn_rate_coef * scale * corr` as the claim requires. -/
theorem affine_c1_counterexample :
    ¬ ((update exBk 1 0 exOnes exOnes UpdateRule.adagrad_update exStCoef2).linearity 0 0 =
      exStCoef2.linearity 0 0 -
        1 * exStCoef2.learn_rate_coef *
          ((update exBk 1 0 exOnes exOnes UpdateRule.adagrad_update
              exStCoef2).linearity_corr_accu_scale 0 0 *
           (update exBk 1 0 exOnes exOnes UpdateRule.adagrad_update
              exStCoef2).linearity_corr 0 0)) := by
  simp [update, initAdaBuffers, exStCoef2, mkAffineTransform, exBk, exOnes,
    matConst, vecConst, addMatMatTN, addRowSumMat, addMat, addMatMatElements,
    adagradAccuUpdateM, adagradScaleComputeM, Fin.sum_univ_one]

/-- C1 (amended).  Under `sgd` the step is scaled by
`base_lr * learn_rate_coef`; under `adagrad` and `rmsprop` the step is
scaled by `base_lr` alone (the source multiplies `learn_rate_coef` into the
learning rate only in the sgd branch), elementwise through the scale buffer
`1 / sqrt(accu + eps)`. -/
theorem affine_c1_amended_step_scaling (dimIn dimOut b : ℕ) (bk : Backend)
    (lr mmt : ℚ) (input : Mat b dimIn) (diff : Mat b dimOut)
    (st : AffineTransform dimIn dimOut) :
    (∀ i j, (update bk lr mmt input diff UpdateRule.sgd_update st).linearity i j =
      st.linearity i j - lr * st.learn_rate_coef *
        (update bk lr mmt input diff UpdateRule.sgd_update st).linearity_corr i j) ∧
    (∀ i, (update bk lr mmt input diff UpdateRule.sgd_update st).bias i =
      st.bias i - lr * st.learn_rate_coef *
        (update bk lr mmt input diff UpdateRule.sgd_update st).bias_corr i) ∧
    (∀ i j, (update bk lr mmt input diff UpdateRule.adagrad_update st).linearity i j =
      st.linearity i j - lr *
        ((update bk lr mmt input diff UpdateRule.adagrad_update st).linearity_corr_accu_scale i j *
         (update bk lr mmt input diff UpdateRule.adagrad_update st).linearity_corr i j)) ∧
    (∀ i, (update bk lr mmt input diff UpdateRule.adagrad_update st).bias i =
      st.bias i - lr *
        ((update bk lr mmt input diff UpdateRule.adagrad_update st).bias_corr_accu_scale i *
         (update bk lr mmt input diff UpdateRule.adagrad_update st).bias_corr i)) ∧
    (∀ i j, (update bk lr mmt input diff UpdateRule.adagrad_update st).linearity_corr_accu_scale i j =
      1 / bk.sqrtFn
        ((update bk lr mmt input diff UpdateRule.adagrad_update st).linearity_corr_accu i j + bk.eps)) ∧
    (∀ i, (update bk lr mmt input diff UpdateRule.adagrad_update st).bias_corr_accu_scale i =
      1 / bk.sqrtFn
        ((update bk lr mmt input diff UpdateRule.adagrad_update st).bias_corr_accu i + bk.eps)) ∧
    (∀ i j, (update bk lr mmt input diff UpdateRule.rmsprop_update st).linearity i j =
      st.linearity i j - lr *
        ((update bk lr mmt input diff UpdateRule.rmsprop_update st).linearity_corr_accu_scale i j *
         (update bk lr mmt input diff UpdateRule.rmsprop_update st).linearity_corr i j)) ∧
    (∀ i, (update bk lr mmt input diff UpdateRule.rmsprop_update st).bias i =
      st.bias i - lr *
        ((update bk lr mmt input diff UpdateRule.rmsprop_update st).bias_corr_accu_scale i *
         (update bk lr mmt input diff UpdateRule.rmsprop_update st).bias_corr i)) ∧
    (∀ i j, (update bk lr mmt input diff UpdateRule.rmsprop_update st).linearity_corr_accu_scale i j =
      1 / bk.sqrtFn
        ((update bk lr mmt input diff UpdateRule.rmsprop_update st).linearity_corr_accu i j + bk.eps)) ∧
    (∀ i, (update bk lr mmt input diff UpdateRule.rmsprop_update st).bias_corr_accu_scale i =
      1 / bk.sqrtFn
        ((update bk lr mmt input diff UpdateRule.rmsprop_update st).bias_corr_accu i + bk.eps)) := by
  cases h : st.adaBuffersInitialized <;>
    refine ⟨fun i j => ?_, fun i => ?_, fun i j => ?_, fun i => ?_, fun i j => ?_,
      fun i => ?_, fun i j => ?_, fun i => ?_, fun i j => ?_, fun i => ?_⟩ <;>
    simp [update, initAdaBuffers, addMat, addVec, addMatMatElements, addVecVec,
      adagradScaleComputeM, adagradScaleComputeV, h] <;>
    ring

/-- Reading back exactly what `WriteData` wrote, into any layer of the same
dimensions, consumes the whole stream and yields the written scalars,
weights and (when present) accumulators, with the scale buffers re-zeroed by
`InitAdaBuffers` when the accumulator block is present. -/
theorem readData_writeData (dimIn dimOut : ℕ) (st st0 : AffineTransform dimIn dimOut) :
    readData st0 (writeData st) =
      some ((if st.adaBuffersInitialized then
        { st0 with
          linearity := st.linearity
          bias := st.bias
          linearity_corr_accu := st.linearity_corr_accu
          bias_corr_accu := st.bias_corr_accu
          linearity_corr_accu_scale := matConst dimOut dimIn 0
          bias_corr_accu_scale := vecConst dimOut 0
          learn_rate_coef := st.learn_rate_coef
          max_grad := st.max_grad
          adaBuffersInitialized := true }
      else
        { st0 with
          linearity := st.linearity
          bias := st.bias
          learn_rate_coef := st.learn_rate_coef
          max_grad := st.max_grad
          adaBuffersInitialized := false }), []) := by
  cases h : st.adaBuffersInitialized <;>
    simp [writeData, h, readData, peekIsTok, expectToken, readBasicType,
      readMatItem, readVecItem, initAdaBuffers]

/-- C2.  `WriteData` followed by `ReadData` into a fresh layer of the same
dimensions reproduces the weight matrix and bias vector, and, when the
original's `adaBuffersInitialized` flag was set, also both adaptive
accumulators and the flag. -/
theorem affine_c2_roundtrip (dimIn dimOut : ℕ) (st : AffineTransform dimIn dimOut) :
    ∃ st1, readData (mkAffineTransform dimIn dimOut) (writeData st) = some (st1, []) ∧
      st1.linearity = st.linearity ∧ st1.bias = st.bias ∧
      (st.adaBuffersInitialized = true →
        st1.linearity_corr_accu = st.linearity_corr_accu ∧
        st1.bias_corr_accu = st.bias_corr_accu ∧
        st1.adaBuffersInitialized = true) := by
  have hrw := readData_writeData dimIn dimOut st (mkAffineTransform dimIn dimOut)
  cases h : st.adaBuffersInitialized
  · rw [h] at hrw
    simp only [Bool.false_eq_true, if_false] at hrw
    exact ⟨_, hrw, rfl, rfl, fun hh => Bool.noConfusion hh⟩
  · rw [h] at hrw
    simp only [if_true] at hrw
    exact ⟨_, hrw, rfl, rfl, fun _ => ⟨rfl, rfl, rfl⟩⟩

/-- Witness for C2: round-tripping a 1×1 layer whose accumulators are
initialized and hold ones reproduces the accumulator and the flag. -/
theorem affine_c2_roundtrip_witness :
    ∃ st1, readData (mkAffineTransform 1 1) (writeData exStAda) = some (st1, []) ∧
      st1.linearity = exStAda.linearity ∧
      st1.linearity_corr_accu = exStAda.linearity_corr_accu ∧
      st1.adaBuffersInitialized = true := by
  obtain ⟨st1, h1, h2, _, h4⟩ := affine_c2_roundtrip 1 1 exStAda
  obtain ⟨a1, _, a3⟩ := h4 rfl
  exact ⟨st1, h1, h2, a1, a3⟩

/-- A stream whose head is a token peeks as a token. -/
theorem peekIsTok_cons_tok (dimIn dimOut : ℕ) (s : String)
    (rest : List (Item dimIn dimOut)) :
    peekIsTok (Item.tok s :: rest) = true := rfl

/-- When the stream opens with no token at all, a successful `ReadData`
leaves `learn_rate_coef` and `max_grad` at their pre-call values and the
flag clear. -/
theorem readData_noTags (dimIn dimOut : ℕ) (st : AffineTransform dimIn dimOut)
    (items : List (Item dimIn dimOut)) (st1 : AffineTransform dimIn dimOut)
    (rest : List (Item dimIn dimOut)) (hp : peekIsTok items = false)
    (h : readData st items = some (st1, rest)) :
    st1.learn_rate_coef = st.learn_rate_coef ∧ st1.max_grad = st.max_grad ∧
    st1.adaBuffersInitialized = false := by
  simp only [readData, hp, Bool.false_eq_true, if_false] at h
  cases hW : readMatItem items with
  | none => simp only [hW] at h; exact Option.noConfusion h
  | some pW =>
    obtain ⟨W, its⟩ := pW
    simp only [hW] at h
    cases hV : readVecItem its with
    | none => simp only [hV] at h; exact Option.noConfusion h
    | some pV =>
      obtain ⟨bv, its2⟩ := pV
      simp only [hV, Option.some.injEq, Prod.mk.injEq] at h
      obtain ⟨h1, -⟩ := h
      rw [← h1]
      exact ⟨rfl, rfl, rfl⟩

/-- When the stream opens with the `LearnRateCoef` tag and then no further
token, a successful `ReadData` stores the streamed coefficient and leaves
`max_grad` at its pre-call value. -/
theorem readData_coefOnly (dimIn dimOut : ℕ) (st : AffineTransform dimIn dimOut)
    (x : ℚ) (items : List (Item dimIn dimOut)) (st1 : AffineTransform dimIn dimOut)
    (rest : List (Item dimIn dimOut)) (hp : peekIsTok items = false)
    (h : readData st (Item.tok "<LearnRateCoef>" :: Item.val x :: items) =
      some (st1, rest)) :
    st1.learn_rate_coef = x ∧ st1.max_grad = st.max_grad ∧
    st1.adaBuffersInitialized = false := by
  simp only [readData, peekIsTok_cons_tok, expectToken, readBasicType, hp,
    Bool.false_eq_true, if_false, if_true, reduceIte] at h
  cases hW : readMatItem items with
  | none => simp only [hW] at h; exact Option.noConfusion h
  | some pW =>
    obtain ⟨W, its⟩ := pW
    simp only [hW] at h
    cases hV : readVecItem its with
    | none => simp only [hV] at h; exact Option.noConfusion h
    | some pV =>
      obtain ⟨bv, its2⟩ := pV
      simp only [hV, Option.some.injEq, Prod.mk.injEq] at h
      obtain ⟨h1, -⟩ := h
      rw [← h1]
      exact ⟨rfl, rfl, rfl⟩

/-- C5 (amended).  `ReadData` clears `adaBuffersInitialized` before anything
else (its outcome never depends on the incoming flag), and each absent
optional tag leaves the corresponding field at its pre-call value — which is
the default (`learn_rate_coef = 1.0`, `max_grad = 0.0`) exactly when the
layer is freshly constructed, not for an arbitrary prior state. -/
theorem affine_c5_amended_optional_tags (dimIn dimOut : ℕ) :
    (∀ (st : AffineTransform dimIn dimOut) items,
      readData st items = readData { st with adaBuffersInitialized := false } items) ∧
    (∀ (st : AffineTransform dimIn dimOut) items st1 rest,
      peekIsTok items = false → readData st items = some (st1, rest) →
      st1.learn_rate_coef = st.learn_rate_coef ∧ st1.max_grad = st.max_grad ∧
      st1.adaBuffersInitialized = false) ∧
    (∀ (st : AffineTransform dimIn dimOut) (x : ℚ) items st1 rest,
      peekIsTok items = false →
      readData st (Item.tok "<LearnRateCoef>" :: Item.val x :: items) =
        some (st1, rest) →
      st1.learn_rate_coef = x ∧ st1.max_grad = st.max_grad) ∧
    (∀ items (st1 : AffineTransform dimIn dimOut) rest,
      peekIsTok items = false →
      readData (mkAffineTransform dimIn dimOut) items = some (st1, rest) →
      st1.learn_rate_coef = 1 ∧ st1.max_grad = 0) := by
  refine ⟨fun st items => rfl, ?_, ?_, ?_⟩
  · exact fun st items st1 rest hp h => readData_noTags dimIn dimOut st items st1 rest hp h
  · exact fun st x items st1 rest hp h =>
      ⟨(readData_coefOnly dimIn dimOut st x items st1 rest hp h).1,
       (readData_coefOnly dimIn dimOut st x items st1 rest hp h).2.1⟩
  · intro items st1 rest hp h
    obtain ⟨h1, h2, -⟩ :=
      readData_noTags dimIn dimOut (mkAffineTransform dimIn dimOut) items st1 rest hp h
    exact ⟨h1, h2⟩

/-- Witness for C5: reading a tag-free stream into a 1×1 layer whose
coefficient is 1/2 succeeds and keeps the 1/2. -/
theorem affine_c5_amended_optional_tags_witness :
    peekIsTok exItemsWB = false ∧
    ∃ st1 rest, readData exStHalf exItemsWB = some (st1, rest) ∧
      st1.learn_rate_coef = exStHalf.learn_rate_coef ∧
      st1.adaBuffersInitialized = false := by
  refine ⟨rfl, ?_⟩
  obtain ⟨p, hp2⟩ : ∃ p, readData exStHalf exItemsWB = some p := ⟨_, rfl⟩
  obtain ⟨st1, rest⟩ := p
  obtain ⟨h1, -, h3⟩ :=
    (affine_c5_amended_optional_tags 1 1).2.1 exStHalf exItemsWB st1 rest rfl hp2
  exact ⟨st1, rest, hp2, h1, h3⟩

/-- Counterexample to C5 as stated: a layer whose `learn_rate_coef` is 1/2
fed a stream without the `LearnRateCoef` tag comes out of `ReadData` with
coefficient 1/2, not the default 1.0 the claim requires for every layer
state. -/
theorem affine_c5_counterexample :
    ((readData exStHalf exItemsWB).map fun p => p.1.learn_rate_coef) =
      some (1 / 2) ∧ ((1 : ℚ) / 2) ≠ 1 := by
  refine ⟨rfl, by norm_num⟩

/-- The flag after `Update`: unchanged by sgd, forced true by the adaptive
rules. -/
theorem update_flag (dimIn dimOut b : ℕ) (bk : Backend) (lr mmt : ℚ)
    (input : Mat b dimIn) (diff : Mat b dimOut) (rule : UpdateRule)
    (st : AffineTransform dimIn dimOut) :
    (update bk lr mmt input diff rule st).adaBuffersInitialized =
      (st.adaBuffersInitialized || decide (rule ≠ UpdateRule.sgd_update)) := by
  cases h : st.adaBuffersInitialized <;> cases rule <;>
    simp [update, initAdaBuffers, h]

/-- A successful operation that sets the flag either started with it set or
invoked `InitAdaBuffers`. -/
theorem runOp_flag_source (dimIn dimOut : ℕ) (st : AffineTransform dimIn dimOut)
    (op : Op dimIn dimOut) (stm : AffineTransform dimIn dimOut)
    (h : runOp st op = some stm) (hf : stm.adaBuffersInitialized = true) :
    st.adaBuffersInitialized = true ∨ opAllocates st op stm = true := by
  cases op with
  | opInitData config randW randB =>
    left
    simp only [runOp, initData] at h
    cases hp : parseInitConfig config (2 / 100) 1 0 with
    | none => simp only [hp] at h; exact Option.noConfusion h
    | some triple =>
      obtain ⟨pr, coef, mg⟩ := triple
      simp only [hp, Option.some.injEq] at h
      rw [← h] at hf
      exact hf
  | opReadData items =>
    right
    simpa [opAllocates] using hf
  | opUpdate b bk lr mmt input diff rule =>
    simp only [runOp, Option.some.injEq] at h
    subst h
    rw [update_flag] at hf
    cases hst : st.adaBuffersInitialized with
    | true => exact Or.inl rfl
    | false =>
      right
      rw [hst] at hf
      simp only [Bool.false_or] at hf
      simp [opAllocates, hst, hf]
  | opScale s =>
    left
    simp only [runOp, Option.some.injEq] at h
    rw [← h] at hf
    exact hf
  | opAdd s other =>
    left
    cases other with
    | affine l =>
      simp only [runOp, addLayer, dynCastAffine, Option.some.injEq] at h
      rw [← h] at hf
      exact hf
    | otherVariant tag =>
      simp only [runOp, addLayer, dynCastAffine] at h
      exact Option.noConfusion h

/-- Along any successful run, a set flag implies the ghost "allocated at
least once" bit. -/
theorem runOpsG_flag_ghost (dimIn dimOut : ℕ) (ops : List (Op dimIn dimOut)) :
    ∀ (st0 : AffineTransform dimIn dimOut) (g0 : Bool) st1 g1,
      (st0.adaBuffersInitialized = true → g0 = true) →
      runOpsG (st0, g0) ops = some (st1, g1) →
      st1.adaBuffersInitialized = true → g1 = true := by
  induction ops with
  | nil =>
    intro st0 g0 st1 g1 hinv h
    simp only [runOpsG, Option.some.injEq, Prod.mk.injEq] at h
    obtain ⟨h1, h2⟩ := h
    rw [← h1, ← h2]
    exact hinv
  | cons op rest ih =>
    intro st0 g0 st1 g1 hinv h
    simp only [runOpsG] at h
    cases hop : runOp st0 op with
    | none => simp only [hop] at h; exact Option.noConfusion h
    | some stm =>
      simp only [hop] at h
      refine ih stm (g0 || opAllocates st0 op stm) st1 g1 (fun hf => ?_) h
      rcases runOp_flag_source dimIn dimOut st0 op stm hop hf with hl | hr
      · rw [hinv hl, Bool.true_or]
      · rw [hr, Bool.or_true]

/-- Over a `ReadData`-free run, a single bit `d` (allocation occurred during
the run) relates the flag change and the ghost change. -/
theorem runOpsG_noRead_delta (dimIn dimOut : ℕ) (ops : List (Op dimIn dimOut)) :
    ∀ (st0 : AffineTransform dimIn dimOut) (g0 : Bool) st1 g1,
      (∀ op ∈ ops, isReadDataOp op = false) →
      runOpsG (st0, g0) ops = some (st1, g1) →
      ∃ d : Bool, st1.adaBuffersInitialized = (st0.adaBuffersInitialized || d) ∧
        g1 = (g0 || d) := by
  induction ops with
  | nil =>
    intro st0 g0 st1 g1 hnr h
    simp only [runOpsG, Option.some.injEq, Prod.mk.injEq] at h
    obtain ⟨h1, h2⟩ := h
    exact ⟨false, by rw [← h1, Bool.or_false], by rw [← h2, Bool.or_false]⟩
  | cons op rest ih =>
    intro st0 g0 st1 g1 hnr h
    simp only [runOpsG] at h
    cases hop : runOp st0 op with
    | none => simp only [hop] at h; exact Option.noConfusion h
    | some stm =>
      simp only [hop] at h
      obtain ⟨d, hd1, hd2⟩ := ih stm (g0 || opAllocates st0 op stm) st1 g1
        (fun o ho => hnr o (List.mem_cons_of_mem _ ho)) h
      cases op with
      | opReadData items =>
        have := hnr _ (List.mem_cons_self _ _)
        simp [isReadDataOp] at this
      | opUpdate b bk lr mmt input diff rule =>
        simp only [runOp, Option.some.injEq] at hop
        subst hop
        refine ⟨(!st0.adaBuffersInitialized && decide (rule ≠ UpdateRule.sgd_update)) || d,
          ?_, ?_⟩
        · rw [hd1, update_flag]
          cases st0.adaBuffersInitialized <;> simp
        · rw [hd2]
          simp only [opAllocates, Bool.or_assoc]
      | opInitData config randW randB =>
        simp only [runOp, initData] at hop
        cases hp : parseInitConfig config (2 / 100) 1 0 with
        | none => simp only [hp] at hop; exact Option.noConfusion hop
        | some triple =>
          obtain ⟨pr, coef, mg⟩ := triple
          simp only [hp, Option.some.injEq] at hop
          refine ⟨d, ?_, ?_⟩
          · rw [hd1, ← hop]
          · rw [hd2]; simp [opAllocates]
      | opScale s =>
        simp only [runOp, Option.some.injEq] at hop
        refine ⟨d, ?_, ?_⟩
        · rw [hd1, ← hop]; rfl
        · rw [hd2]; simp [opAllocates]
      | opAdd s other =>
        cases other with
        | affine l =>
          simp only [runOp, addLayer, dynCastAffine, Option.some.injEq] at hop
          refine ⟨d, ?_, ?_⟩
          · rw [hd1, ← hop]
          · rw [hd2]; simp [opAllocates]
        | otherVariant tag =>
          simp only [runOp, addLayer, dynCastAffine] at hop
          exact Option.noConfusion hop

/-- C3 (amended).  Along every successful operation sequence from a fresh
layer, a set `adaBuffersInitialized` implies the adaptive buffers have been
allocated at least once; and over any `ReadData`-free sequence the flag
equals "it was set before, or an allocation happened during the sequence"
(so it is monotone there and, from a clear flag, tracks allocation exactly).
`ReadData` itself re-baselines the flag from the stream, so the claim's
global "never reverts / true iff ever allocated" fails — see the
counterexample. -/
theorem affine_c3_amended_flag_lifecycle (dimIn dimOut : ℕ) :
    (∀ (ops : List (Op dimIn dimOut)) st1 g1,
      runOpsG (mkAffineTransform dimIn dimOut, false) ops = some (st1, g1) →
      st1.adaBuffersInitialized = true → g1 = true) ∧
    (∀ (ops : List (Op dimIn dimOut)) (st0 : AffineTransform dimIn dimOut) st1 g1,
      (∀ op ∈ ops, isReadDataOp op = false) →
      runOpsG (st0, false) ops = some (st1, g1) →
      st1.adaBuffersInitialized = (st0.adaBuffersInitialized || g1)) := by
  constructor
  · intro ops st1 g1 h
    exact runOpsG_flag_ghost dimIn dimOut ops (mkAffineTransform dimIn dimOut) false
      st1 g1 (fun hf => Bool.noConfusion hf) h
  · intro ops st0 st1 g1 hnr h
    obtain ⟨d, hd1, hd2⟩ := runOpsG_noRead_delta dimIn dimOut ops st0 false st1 g1 hnr h
    rw [hd1, hd2, Bool.false_or]

/-- Witness for C3: one adagrad update from a fresh 1×1 layer sets the flag
and the ghost bit, and a `Scale` on a layer with the flag set keeps it. -/
theorem affine_c3_amended_flag_lifecycle_witness :
    (runOpsG (mkAffineTransform 1 1, false)
        [Op.opUpdate 1 exBk 1 0 exOnes exOnes UpdateRule.adagrad_update] =
      some (update exBk 1 0 exOnes exOnes UpdateRule.adagrad_update
        (mkAffineTransform 1 1), true) ∧
      (true : Bool) = true) ∧
    (scaleLayer 2 exStAda).adaBuffersInitialized =
      (exStAda.adaBuffersInitialized || false) := by
  have hrun : runOpsG (mkAffineTransform 1 1, false)
      [Op.opUpdate 1 exBk 1 0 exOnes exOnes UpdateRule.adagrad_update] =
    some (update exBk 1 0 exOnes exOnes UpdateRule.adagrad_update
      (mkAffineTransform 1 1), true) := rfl
  refine ⟨⟨hrun, (affine_c3_amended_flag_lifecycle 1 1).1 _ _ true hrun rfl⟩, ?_⟩
  exact (affine_c3_amended_flag_lifecycle 1 1).2 [Op.opScale 2] exStAda
    (scaleLayer 2 exStAda) false
    (fun op hop => by rw [List.mem_singleton] at hop; rw [hop]; rfl) rfl

/-- Counterexample to C3 as stated: adagrad-update then `ReadData` of an
accumulator-less stream is a successful operation sequence after which the
buffers have been allocated (ghost bit true) yet `adaBuffersInitialized` is
false — the flag reverted and the "true iff ever allocated" biconditional
fails. -/
theorem affine_c3_counterexample :
    ((runOpsG (mkAffineTransform 1 1, false) exOpsC3).map fun p =>
      (p.1.adaBuffersInitialized, p.2)) = some (false, true) := rfl

/-- The accumulators `Update` leaves behind: untouched under sgd, otherwise
the rule's accumulation applied to the pre-existing buffer when the flag was
set, and to the freshly zero-filled buffer otherwise. -/
theorem update_accu (dimIn dimOut b : ℕ) (bk : Backend) (lr mmt : ℚ)
    (input : Mat b dimIn) (diff : Mat b dimOut) (rule : UpdateRule)
    (st : AffineTransform dimIn dimOut) :
    (update bk lr mmt input diff rule st).linearity_corr_accu =
      expectedAccuM bk rule st ((update bk lr mmt input diff rule st).linearity_corr) ∧
    (update bk lr mmt input diff rule st).bias_corr_accu =
      expectedAccuV bk rule st ((update bk lr mmt input diff rule st).bias_corr) := by
  cases h : st.adaBuffersInitialized <;> cases rule <;>
    simp [update, initAdaBuffers, expectedAccuM, expectedAccuV, h]

/-- `applyCall` restated through `update_flag`. -/
theorem applyCall_flag (dimIn dimOut : ℕ) (st : AffineTransform dimIn dimOut)
    (c : UpdCall dimIn dimOut) :
    (applyCall st c).adaBuffersInitialized =
      (st.adaBuffersInitialized || decide (c.rule ≠ UpdateRule.sgd_update)) :=
  update_flag dimIn dimOut c.b c.bk c.lr c.mmt c.input c.diff c.rule st

/-- The flag after a sequence of `Update` calls: its previous value, or-ed
with "some call used an adaptive rule". -/
theorem runUpdates_flag (dimIn dimOut : ℕ) (calls : List (UpdCall dimIn dimOut)) :
    ∀ st : AffineTransform dimIn dimOut,
      (runUpdates st calls).adaBuffersInitialized =
        (st.adaBuffersInitialized ||
          calls.any fun c => decide (c.rule ≠ UpdateRule.sgd_update)) := by
  induction calls with
  | nil => intro st; simp [runUpdates]
  | cons c cs ih =>
    intro st
    simp only [runUpdates, List.any_cons]
    rw [ih, applyCall_flag, Bool.or_assoc]

/-- Once the flag is set no later `Update` call allocates. -/
theorem allocCount_of_true (dimIn dimOut : ℕ) (calls : List (UpdCall dimIn dimOut)) :
    ∀ st : AffineTransform dimIn dimOut, st.adaBuffersInitialized = true →
      allocCount st calls = 0 := by
  induction calls with
  | nil => intro st _; rfl
  | cons c cs ih =>
    intro st hf
    simp only [allocCount, hf, Bool.not_true, Bool.false_and,
      Bool.false_eq_true, reduceIte, Nat.zero_add]
    exact ih (applyCall st c) (by rw [applyCall_flag, hf, Bool.true_or])

/-- From a clear flag, a sequence of `Update` calls allocates exactly once
when it contains an adaptive call, and never otherwise. -/
theorem allocCount_of_false (dimIn dimOut : ℕ) (calls : List (UpdCall dimIn dimOut)) :
    ∀ st : AffineTransform dimIn dimOut, st.adaBuffersInitialized = false →
      allocCount st calls =
        (if calls.any (fun c => decide (c.rule ≠ UpdateRule.sgd_update))
          then 1 else 0) := by
  induction calls with
  | nil => intro st _; rfl
  | cons c cs ih =>
    intro st hf
    cases hr : decide (c.rule ≠ UpdateRule.sgd_update) with
    | false =>
      simp only [allocCount, hf, hr, Bool.not_false, Bool.and_false,
        Bool.false_eq_true, reduceIte, List.any_cons, Bool.false_or, Nat.zero_add]
      exact ih (applyCall st c) (by rw [applyCall_flag, hf, hr, Bool.or_false])
    | true =>
      simp only [allocCount, hf, hr, Bool.not_false, Bool.and_true,
        reduceIte, List.any_cons, Bool.true_or]
      rw [allocCount_of_true dimIn dimOut cs (applyCall st c)
        (by rw [applyCall_flag, hf, hr, Bool.or_true])]

/-- C6.  Over any sequence of `Update` calls: the flag ends set exactly when
it was set before or some call used an adaptive rule (so sgd-only sequences
leave it clear, and once set it stays set); from a clear flag the buffers
are allocated exactly once over the whole sequence when any adaptive call
occurs, never under sgd alone, and never again once the flag is set; and
each single call leaves the accumulators untouched under sgd, continues the
existing buffer under an adaptive rule with the flag set, and accumulates
onto the freshly zero-filled buffer on the first adaptive call. -/
theorem affine_c6_lazy_allocation (dimIn dimOut : ℕ)
    (st : AffineTransform dimIn dimOut) (calls : List (UpdCall dimIn dimOut)) :
    ((runUpdates st calls).adaBuffersInitialized =
      (st.adaBuffersInitialized ||
        calls.any fun c => decide (c.rule ≠ UpdateRule.sgd_update))) ∧
    (st.adaBuffersInitialized = false →
      allocCount st calls =
        (if calls.any (fun c => decide (c.rule ≠ UpdateRule.sgd_update))
          then 1 else 0)) ∧
    (st.adaBuffersInitialized = true → allocCount st calls = 0) ∧
    (∀ (st1 : AffineTransform dimIn dimOut) (c : UpdCall dimIn dimOut),
      (applyCall st1 c).adaBuffersInitialized =
        (st1.adaBuffersInitialized || decide (c.rule ≠ UpdateRule.sgd_update)) ∧
      (applyCall st1 c).linearity_corr_accu =
        expectedAccuM c.bk c.rule st1 ((applyCall st1 c).linearity_corr) ∧
      (applyCall st1 c).bias_corr_accu =
        expectedAccuV c.bk c.rule st1 ((applyCall st1 c).bias_corr)) := by
  refine ⟨runUpdates_flag dimIn dimOut calls st,
    allocCount_of_false dimIn dimOut calls st,
    allocCount_of_true dimIn dimOut calls st,
    fun st1 c => ⟨applyCall_flag dimIn dimOut st1 c, ?_, ?_⟩⟩
  · exact (update_accu dimIn dimOut c.b c.bk c.lr c.mmt c.input c.diff c.rule st1).1
  · exact (update_accu dimIn dimOut c.b c.bk c.lr c.mmt c.input c.diff c.rule st1).2

/-- Witness for C6: from a fresh 1×1 layer, the sequence (adagrad, sgd)
leaves the flag set and allocates exactly once. -/
theorem affine_c6_lazy_allocation_witness :
    (runUpdates (mkAffineTransform 1 1) [exCallAda, exCallSgd]).adaBuffersInitialized
      = true ∧
    allocCount (mkAffineTransform 1 1) [exCallAda, exCallSgd] = 1 := by
  have h := affine_c6_lazy_allocation 1 1 (mkAffineTransform 1 1) [exCallAda, exCallSgd]
  constructor
  · rw [h.1]; rfl
  · rw [h.2.1 rfl]; rfl

end Eesen
